import Mathlib

/-!
Verification of the RIPS generation core: a shallow embedding of
`src/rips_generator/rips_builder.py`, `src/rips_generator/rips_validator.py`
and the invoice parser (`invoice_parser.py`), with theorems checking the
documented behaviour of document-identity resolution, record building,
validation rules and tolerant numeric/date parsing.

Modelling conventions:
* Python `Decimal` values are modelled as exact rationals (`ℚ`); `Decimal`
  arithmetic on the operations used here (add, sub, mul, abs, compare,
  exact division by 100) is exact, so this is value-faithful.  The textual
  rendering of a number inside a human-readable message is not modelled
  bit-for-bit (see `dec_repr`); no theorem depends on those characters.
* Python `datetime` values are modelled by their (year, month, day) triple;
  no claim checked here depends on the time-of-day part.
* Python `Optional[str]` becomes `Option String`; Python truthiness of an
  optional string (`if candidate:`) is `opt_truthy`.
* `str.upper` / `str.lower` / `str.strip` are modelled on ASCII characters
  (the data handled by these functions: document type codes, document
  numbers, table headers, numeric strings).
* `Decimal(text)` special values (NaN, Infinity) are outside the model;
  no input considered here produces them.
-/

/-- Python truthiness of an `Optional[str]`: `None` and `""` are falsy. -/
def opt_truthy (o : Option String) : Bool :=
  match o with
  | none => false
  | some s => s != ""

/-- Python `a or b` on two optional strings. -/
def py_or_opt (a b : Option String) : Option String :=
  if opt_truthy a then a else b

/-- Python `a or d` where `a` is an optional string and `d` a string. -/
def py_or_str (a : Option String) (d : String) : String :=
  match a with
  | some s => if s != "" then s else d
  | none => d

/-- Python `a or b` on two `Decimal` values: `a` unless it is zero. -/
def py_or_q (a b : ℚ) : ℚ :=
  if a ≠ 0 then a else b

/-- Model of `Decimal.copy_abs`: the absolute value. -/
def q_abs (q : ℚ) : ℚ :=
  if q < 0 then -q else q

/-- ASCII lower-case letter (Python `str.islower` over the ASCII range). -/
def is_lower_ascii (c : Char) : Bool :=
  97 ≤ c.toNat && c.toNat ≤ 122

/-- ASCII upper-case letter. -/
def is_upper_ascii (c : Char) : Bool :=
  65 ≤ c.toNat && c.toNat ≤ 90

/-- ASCII model of Python `str.upper` on one character. -/
def upper_char (c : Char) : Char :=
  if h : 97 ≤ c.toNat ∧ c.toNat ≤ 122 then
    Char.ofNatAux (c.toNat - 32) (Or.inl (by omega))
  else c

/-- ASCII model of Python `str.lower` on one character. -/
def lower_char (c : Char) : Char :=
  if h : 65 ≤ c.toNat ∧ c.toNat ≤ 90 then
    Char.ofNatAux (c.toNat + 32) (Or.inl (by omega))
  else c

/-- ASCII model of Python `str.upper`. -/
def upper_str (s : String) : String :=
  ⟨s.data.map upper_char⟩

/-- ASCII model of Python `str.lower`. -/
def lower_str (s : String) : String :=
  ⟨s.data.map lower_char⟩

/-- Python `s.replace(" ", "")`: removes every space character. -/
def strip_spaces (s : String) : String :=
  ⟨s.data.filter (fun c => c != ' ')⟩

/-- Python whitespace characters stripped by `str.strip()` (ASCII range). -/
def is_space_char (c : Char) : Bool :=
  c == ' ' || c == '\t' || c == '\n' || c == '\r' || c == '\x0b' || c == '\x0c'

/-- Python `str.strip()` on a character list. -/
def trim_chars (l : List Char) : List Char :=
  ((l.dropWhile is_space_char).reverse.dropWhile is_space_char).reverse

/-- Python `str.strip()`. -/
def trim_str (s : String) : String :=
  ⟨trim_chars s.data⟩

/-- Is `pat` a contiguous substring of `s` (Python `pat in s`)? -/
def contains_sub : List Char → List Char → Bool
  | [], pat => pat.isEmpty
  | s@(_ :: t), pat => pat.isPrefixOf s || contains_sub t pat

/-- Numeric value of a digit string (most significant first). -/
def digits_val (l : List Char) : Nat :=
  l.foldl (fun n c => 10 * n + (c.toNat - 48)) 0

/-- A calendar date; models the (year, month, day) part of a Python
`datetime`. -/
structure DateTime where
  year : Nat
  month : Nat
  day : Nat
deriving DecidableEq, Repr

/-- One line item of the electronic invoice (`models.InvoiceLine`). -/
structure InvoiceLine where
  line_id : Option String
  cups_code : Option String
  description : Option String
  quantity : ℚ
  price_amount : ℚ
  line_extension_amount : ℚ
deriving DecidableEq, Repr

/-- Header data of the electronic invoice (`models.InvoiceData`). -/
structure InvoiceData where
  invoice_id : String
  issue_date : DateTime
  supplier_tax_id : Option String
  supplier_name : Option String
  customer_tax_id : Option String
  customer_name : Option String
  total_amount : ℚ
  currency : String
  lines : List InvoiceLine
deriving DecidableEq, Repr

/-- One consultation found in the clinical history (`models.ConsultationInfo`). -/
structure ConsultationInfo where
  code : String
  description : Option String
  datetime : Option DateTime
  purpose_text : Option String
  authorization_number : Option String
  diagnosis_type : Option String
deriving DecidableEq, Repr

/-- Patient data extracted from the clinical history (`models.PatientInfo`). -/
structure PatientInfo where
  document_type : Option String
  document_number : Option String
  full_name : Option String
  admission_document_type : Option String
  admission_document_number : Option String
  admission_id : Option String
  admission_datetime : Option DateTime
  discharge_datetime : Option DateTime
  service_type : Option String
  entry_service : Option String
  principal_diagnosis : Option String
  principal_diagnosis_code : Option String
  service_purpose : Option String
  triage_level : Option String
  consultations : List ConsultationInfo
deriving DecidableEq, Repr

/-- Patient identity carried by the machine-readable annex
(`models.AnnexPatientInfo`). -/
structure AnnexPatientInfo where
  document_type : Option String
  document_number : Option String
  full_name : Option String
  gender : Option String
  birth_date : Option DateTime
  municipality_code : Option String
  residence_zone : Option String
deriving DecidableEq, Repr

/-- Medication entry of the annex (`models.AnnexMedicationEntry`). -/
structure AnnexMedicationEntry where
  provider_code : String
  document_type : Option String
  document_number : Option String
  authorization_number : Option String
  medication_code : String
  medication_name : Option String
  medication_type : Option String
  unit_value : ℚ
  total_value : ℚ
  quantity : ℚ
  unit_measure : Option String
  treatment_days : Option Int
  diagnosis_code : Option String
  related_diagnosis : Option String
  mipres_id : Option String
  administration_date : Option DateTime
  pharmaceutical_form : Option String
  concentration : Option String
deriving DecidableEq, Repr

/-- Other-service entry of the annex (`models.AnnexOtherServiceEntry`). -/
structure AnnexOtherServiceEntry where
  provider_code : String
  document_type : Option String
  document_number : Option String
  authorization_number : Option String
  service_code : String
  service_name : Option String
  service_type : Option String
  service_date : Option DateTime
  unit_value : ℚ
  total_value : ℚ
  quantity : ℚ
  diagnosis_code : Option String
  related_diagnosis : Option String
  mipres_id : Option String
deriving DecidableEq, Repr

/-- Data of the annex document (`models.AnnexData`). -/
structure AnnexData where
  patient : AnnexPatientInfo
  medications : List AnnexMedicationEntry
  other_services : List AnnexOtherServiceEntry
deriving DecidableEq, Repr

/-- RIPS procedure record, file AP (`models.RipsProcedureRecord`). -/
structure RipsProcedureRecord where
  provider_code : String
  invoice_number : String
  document_type : String
  document_number : String
  service_date : DateTime
  authorization_number : Option String
  service_code : String
  cups_code : String
  diagnosis_code : Option String
  diagnosis_related : Option String
  service_purpose_code : Option String
  attention_type_code : Option String
  copayment_value : ℚ
  net_value : ℚ
  modality_code : Option String
deriving DecidableEq, Repr

/-- RIPS consultation record, file AC (`models.RipsConsultationRecord`). -/
structure RipsConsultationRecord where
  provider_code : String
  invoice_number : String
  document_type : String
  document_number : String
  consultation_date : DateTime
  authorization_number : Option String
  consultation_code : String
  consultation_purpose : Option String
  external_cause : Option String
  principal_diagnosis : Option String
  related_diagnosis1 : Option String
  related_diagnosis2 : Option String
  related_diagnosis3 : Option String
  diagnosis_type : Option String
  consultation_value : ℚ
  copayment_value : ℚ
  net_value : ℚ
deriving DecidableEq, Repr

/-- RIPS medication record, file AM (`models.RipsMedicationRecord`). -/
structure RipsMedicationRecord where
  provider_code : String
  invoice_number : String
  document_type : String
  document_number : String
  authorization_number : Option String
  medication_code : String
  medication_name : Option String
  medication_type : Option String
  pharmaceutical_form : Option String
  concentration : Option String
  unit_measure : Option String
  treatment_days : Option Int
  quantity : ℚ
  unit_value : ℚ
  total_value : ℚ
  mipres_id : Option String
  principal_diagnosis : Option String
  related_diagnosis : Option String
  administration_date : Option DateTime
deriving DecidableEq, Repr

/-- RIPS other-service record, file AT (`models.RipsOtherServiceRecord`). -/
structure RipsOtherServiceRecord where
  provider_code : String
  invoice_number : String
  document_type : String
  document_number : String
  authorization_number : Option String
  service_code : String
  service_name : Option String
  service_type : Option String
  service_date : Option DateTime
  quantity : ℚ
  unit_value : ℚ
  total_value : ℚ
  mipres_id : Option String
  principal_diagnosis : Option String
  related_diagnosis : Option String
deriving DecidableEq, Repr

/-- RIPS invoice header record, file AF (`models.RipsInvoiceRecord`). -/
structure RipsInvoiceRecord where
  provider_code : String
  provider_name : Option String
  invoice_number : String
  invoice_date : DateTime
  total_value : ℚ
  document_type : Option String
  document_number : Option String
  contract_number : Option String
  policy_number : Option String
  copayment_value : ℚ
  commission_value : ℚ
  discount_value : ℚ
deriving DecidableEq, Repr

/-- RIPS user record, file US (`models.RipsUserRecord`). -/
structure RipsUserRecord where
  document_type : String
  document_number : String
  last_name : Option String
  second_last_name : Option String
  first_name : Option String
  second_name : Option String
  age : Option Int
  age_unit : Option String
  gender : Option String
  department_code : Option String
  municipality_code : Option String
  residence_area : Option String
deriving DecidableEq, Repr

/-- A validation finding (`models.ValidationMessage`). -/
structure ValidationMessage where
  severity : String
  code : String
  message : String
deriving DecidableEq, Repr

/-! ## RecordBuilder (`rips_builder.py`) -/

/-- Attention-type lookup table (`ATTENTION_TYPE_MAP`), in insertion order. -/
def ATTENTION_TYPE_MAP : List (String × String) :=
  [("urgencias", "02"), ("consulta externa", "01"), ("consulta", "01"),
   ("hospitalización", "04"), ("hospitalizacion", "04"), ("vacunacion", "13")]

/-- Service-purpose lookup table (`SERVICE_PURPOSE_MAP`), in insertion order. -/
def SERVICE_PURPOSE_MAP : List (String × String) :=
  [("consulta de primera vez", "01"), ("consulta de control", "02"),
   ("programa pf", "03"), ("detección", "04"), ("deteccion", "04"),
   ("consulta de urgencias", "10"), ("no aplica", "14"), ("vacunacion", "14"),
   ("terapia", "07")]

/-- Default document type (`DOCUMENT_TYPE_DEFAULT`). -/
def DOCUMENT_TYPE_DEFAULT : String := "CC"

/-- The builder (`RipsBuilder` dataclass); the two extra fields model the
memoization attributes `_resolved_document_type` / `_resolved_document_number`
(absent on a fresh instance, hence `none` in `mk_builder`). -/
structure RipsBuilder where
  invoice : InvoiceData
  patient : PatientInfo
  provider_code : Option String
  annex_data : Option AnnexData
  resolved_document_type : Option String
  resolved_document_number : Option String
deriving DecidableEq, Repr

/-- A freshly constructed builder: no memoized identity yet. -/
def mk_builder (invoice : InvoiceData) (patient : PatientInfo)
    (provider_code : Option String) (annex_data : Option AnnexData) : RipsBuilder :=
  ⟨invoice, patient, provider_code, annex_data, none, none⟩

/-- Model of `self.annex_data.patient.document_type if self.annex_data else None`. -/
def annex_document_type (a : Option AnnexData) : Option String :=
  match a with
  | some ad => ad.patient.document_type
  | none => none

/-- Model of `self.annex_data.patient.document_number if self.annex_data else None`. -/
def annex_document_number (a : Option AnnexData) : Option String :=
  match a with
  | some ad => ad.patient.document_number
  | none => none

/-- The candidate loop shared by both resolvers: first truthy candidate. -/
def first_truthy : List (Option String) → Option String
  | [] => none
  | c :: rest => if opt_truthy c then c else first_truthy rest

/-- Model of `RipsBuilder.resolve_document_type`, value computed on a cache miss:
first truthy candidate of the precedence chain, upper-cased; the constant
`DOCUMENT_TYPE_DEFAULT` closes the chain so the final fallback is unreachable. -/
def resolve_document_type (p : PatientInfo) (a : Option AnnexData) : String :=
  match first_truthy [p.document_type, p.admission_document_type,
      annex_document_type a, some DOCUMENT_TYPE_DEFAULT] with
  | some s => upper_str s
  | none => DOCUMENT_TYPE_DEFAULT

/-- Model of `RipsBuilder.resolve_document_number`, value computed on a cache miss:
first truthy candidate, spaces removed; empty string if none. -/
def resolve_document_number (p : PatientInfo) (a : Option AnnexData) : String :=
  match first_truthy [p.document_number, p.admission_document_number,
      annex_document_number a] with
  | some s => strip_spaces s
  | none => ""

/-- Model of `RipsBuilder.resolve_document_type` with its memoization: a truthy cached
value is returned as is, otherwise the value is computed and stored. -/
def resolve_document_type_step (b : RipsBuilder) : String × RipsBuilder :=
  match b.resolved_document_type with
  | some c =>
    if c != "" then (c, b)
    else
      let r := resolve_document_type b.patient b.annex_data
      (r, { b with resolved_document_type := some r })
  | none =>
    let r := resolve_document_type b.patient b.annex_data
    (r, { b with resolved_document_type := some r })

/-- Model of `RipsBuilder.resolve_document_number` with its memoization: any cached
value (`is not None`), even the empty string, is returned as is. -/
def resolve_document_number_step (b : RipsBuilder) : String × RipsBuilder :=
  match b.resolved_document_number with
  | some c => (c, b)
  | none =>
    let r := resolve_document_number b.patient b.annex_data
    (r, { b with resolved_document_number := some r })

/-- Model of `self.provider_code or self.invoice.supplier_tax_id or ""`. -/
def builder_provider_code (b : RipsBuilder) : String :=
  py_or_str (py_or_opt b.provider_code b.invoice.supplier_tax_id) ""

/-- Model of `RipsBuilder._resolve_service_date`. -/
def resolve_service_date (b : RipsBuilder) : DateTime :=
  match b.patient.admission_datetime with
  | some d => d
  | none => b.invoice.issue_date

/-- Substring lookup over one of the mapping tables (`key in raw_norm`),
first matching key wins (Python dict preserves insertion order). -/
def lookup_substr : List (String × String) → String → Option String
  | [], _ => none
  | (k, v) :: rest, s => if contains_sub s.data k.data then some v else lookup_substr rest s

/-- Model of `RipsBuilder._map_attention_type`. -/
def map_attention_type (raw : Option String) : Option String :=
  match raw with
  | none => none
  | some r => if r == "" then none else lookup_substr ATTENTION_TYPE_MAP (lower_str r)

/-- Model of `RipsBuilder._map_service_purpose`. -/
def map_service_purpose (raw : Option String) : Option String :=
  match raw with
  | none => none
  | some r => if r == "" then none else lookup_substr SERVICE_PURPOSE_MAP (lower_str r)

/-- Model of `RipsBuilder._map_consultation_purpose` (delegates to the service map). -/
def map_consultation_purpose (raw : Option String) : Option String :=
  map_service_purpose raw

/-- Inner loop of `RipsBuilder._match_line_value`: first invoice line whose
stripped CUPS code equals the sought code gives
`line.line_extension_amount or line.price_amount or Decimal("0")`. -/
def match_line_loop : List InvoiceLine → String → ℚ
  | [], _ => 0
  | line :: rest, c =>
    if trim_str (line.cups_code.getD "") == c then
      py_or_q line.line_extension_amount (py_or_q line.price_amount 0)
    else match_line_loop rest c

/-- Model of `RipsBuilder._match_line_value`. -/
def match_line_value (lines : List InvoiceLine) (cups_code : Option String) : ℚ :=
  match cups_code with
  | none => 0
  | some c => if c == "" then 0 else match_line_loop lines c

/-- Model of `RipsBuilder.build_procedure_records` (one record per invoice line); the
memoized resolvers always yield the fresh-computation value on a new builder,
embedded here directly. -/
def build_procedure_records (b : RipsBuilder) : List RipsProcedureRecord :=
  b.invoice.lines.map (fun line =>
    { provider_code := builder_provider_code b
      invoice_number := b.invoice.invoice_id
      document_type := resolve_document_type b.patient b.annex_data
      document_number := resolve_document_number b.patient b.annex_data
      service_date := resolve_service_date b
      authorization_number := none
      service_code := py_or_str line.line_id "1"
      cups_code := py_or_str line.cups_code ""
      diagnosis_code := b.patient.principal_diagnosis_code
      diagnosis_related := none
      service_purpose_code := map_service_purpose b.patient.service_purpose
      attention_type_code := map_attention_type b.patient.service_type
      copayment_value := 0
      net_value := py_or_q line.line_extension_amount line.price_amount
      modality_code := none })

/-- Model of `RipsBuilder.build_consultation_records` (one record per consultation of
the clinical history). -/
def build_consultation_records (b : RipsBuilder) : List RipsConsultationRecord :=
  b.patient.consultations.map (fun consultation =>
    { provider_code := builder_provider_code b
      invoice_number := b.invoice.invoice_id
      document_type := resolve_document_type b.patient b.annex_data
      document_number := resolve_document_number b.patient b.annex_data
      consultation_date :=
        (match consultation.datetime with
         | some d => d
         | none => resolve_service_date b)
      authorization_number := consultation.authorization_number
      consultation_code := consultation.code
      consultation_purpose :=
        map_consultation_purpose
          (py_or_opt consultation.purpose_text b.patient.service_purpose)
      external_cause := none
      principal_diagnosis := b.patient.principal_diagnosis_code
      related_diagnosis1 := none
      related_diagnosis2 := none
      related_diagnosis3 := none
      diagnosis_type := some (py_or_str consultation.diagnosis_type "1")
      consultation_value := match_line_value b.invoice.lines (some consultation.code)
      copayment_value := 0
      net_value := match_line_value b.invoice.lines (some consultation.code) })

/-! ## Validator (`rips_validator.py`) -/

/-- Model of `DECIMAL_ZERO`. -/
def DECIMAL_ZERO : ℚ := 0

/-- Model of `TOLERANCE = Decimal("1.00")`: absolute tolerance, in pesos. -/
def TOLERANCE : ℚ := 1

/-- Model of `safe_sum`: sum of a list of values (the source skips `None` entries;
the record fields summed here are non-optional decimals). -/
def safe_sum (values : List ℚ) : ℚ :=
  values.foldl (fun total value => total + value) DECIMAL_ZERO

/-- Rendering of a decimal inside a human-readable message (stand-in for
Python `str(Decimal)`; no theorem below depends on these characters). -/
def dec_repr (q : ℚ) : String :=
  if q.den = 1 then toString q.num
  else toString q.num ++ "/" ++ toString q.den

/-- The inner `check` of `_validate_documents`: the mismatch strings one
record contributes. -/
def doc_check (target_doc_type target_doc_number : Option String)
    (record_type doc_type doc_number : String) : List String :=
  if doc_number == "" then [record_type ++ ": documento vacío"]
  else
    (if opt_truthy target_doc_number && (doc_number != target_doc_number.getD "") then
       [record_type ++ ": documento " ++ doc_number ++ " != " ++ target_doc_number.getD ""]
     else []) ++
    (if opt_truthy target_doc_type && (doc_type != "") &&
        (doc_type != target_doc_type.getD "") then
       [record_type ++ ": tipo " ++ doc_type ++ " != " ++ target_doc_type.getD ""]
     else [])

/-- Model of `_validate_documents`: the messages this rule appends. -/
def validate_documents (target_doc_type target_doc_number : Option String)
    (procedures : List RipsProcedureRecord)
    (consultations : List RipsConsultationRecord)
    (medications : List RipsMedicationRecord)
    (other_services : List RipsOtherServiceRecord) : List ValidationMessage :=
  let mismatches :=
    (procedures.map (fun r =>
      doc_check target_doc_type target_doc_number "AP" r.document_type r.document_number)).flatten ++
    (consultations.map (fun r =>
      doc_check target_doc_type target_doc_number "AC" r.document_type r.document_number)).flatten ++
    (medications.map (fun r =>
      doc_check target_doc_type target_doc_number "AM" r.document_type r.document_number)).flatten ++
    (other_services.map (fun r =>
      doc_check target_doc_type target_doc_number "AT" r.document_type r.document_number)).flatten
  if mismatches.isEmpty then []
  else
    [⟨"WARNING", "DOC001",
      "Inconsistencias en tipo/número de documento: " ++ String.intercalate ("; ") mismatches⟩]

/-- Model of `_validate_totals`: the messages this rule appends (an `INFO TOT002`
when AP and extra totals are both positive, then a `WARNING TOT001` when the
invoice total is off by more than the tolerance). -/
def validate_totals (invoice : RipsInvoiceRecord)
    (procedures : List RipsProcedureRecord)
    (consultations : List RipsConsultationRecord)
    (medications : List RipsMedicationRecord)
    (other_services : List RipsOtherServiceRecord) : List ValidationMessage :=
  let total_procedures := safe_sum (procedures.map (fun r => r.net_value))
  let total_consultations := safe_sum (consultations.map (fun r => r.net_value))
  let total_medications := safe_sum (medications.map (fun r => r.total_value))
  let total_other_services := safe_sum (other_services.map (fun r => r.total_value))
  let extras_total := total_consultations + total_medications + total_other_services
  let tot2 : List ValidationMessage :=
    if total_procedures > DECIMAL_ZERO ∧ extras_total > DECIMAL_ZERO then
      [⟨"INFO", "TOT002",
        "Valores en AC/AM/AT detectados adicionales a AP; se usa AP para conciliación de totales."⟩]
    else []
  let calculated_total :=
    if total_procedures > DECIMAL_ZERO then total_procedures else extras_total
  let difference := py_or_q invoice.total_value DECIMAL_ZERO - calculated_total
  let tot1 : List ValidationMessage :=
    if q_abs difference > TOLERANCE then
      [⟨"WARNING", "TOT001",
        "Total factura (" ++ dec_repr invoice.total_value ++
        ") difiere de suma registros (" ++ dec_repr calculated_total ++
        ") por " ++ dec_repr difference ++ "."⟩]
    else []
  tot2 ++ tot1

/-- One `for idx, record in enumerate(records, start=1)` collection loop:
the strings produced, given the string (if any) each (index, record) pair
contributes. -/
def collect_indexed (f : Nat → α → Option String) : Nat → List α → List String
  | _, [] => []
  | idx, r :: rest =>
    (match f idx r with
     | some s => [s]
     | none => []) ++ collect_indexed f (idx + 1) rest

/-- The entry `_validate_diagnoses` emits for an offending record. -/
def dx_item (tag : String) (idx : Nat) : String :=
  tag ++ "[" ++ toString idx ++ "] sin diagnóstico principal"

/-- Model of `_validate_diagnoses`: the messages this rule appends. -/
def validate_diagnoses (procedures : List RipsProcedureRecord)
    (consultations : List RipsConsultationRecord)
    (medications : List RipsMedicationRecord)
    (other_services : List RipsOtherServiceRecord) : List ValidationMessage :=
  let missing :=
    collect_indexed (fun idx r =>
      if opt_truthy r.diagnosis_code then none else some (dx_item "AP" idx)) 1 procedures ++
    collect_indexed (fun idx r =>
      if opt_truthy r.principal_diagnosis then none else some (dx_item "AC" idx)) 1 consultations ++
    collect_indexed (fun idx r =>
      if opt_truthy r.principal_diagnosis then none else some (dx_item "AM" idx)) 1 medications ++
    collect_indexed (fun idx r =>
      if opt_truthy r.principal_diagnosis then none else some (dx_item "AT" idx)) 1 other_services
  if missing.isEmpty then []
  else
    [⟨"ERROR", "DX001", "Diagnósticos ausentes: " ++ String.intercalate ("; ") missing⟩]

/-- Model of `_validate_cups`: the messages this rule appends. -/
def validate_cups (procedures : List RipsProcedureRecord) : List ValidationMessage :=
  let missing :=
    collect_indexed (fun idx r =>
      if r.cups_code != "" then none else some (toString idx)) 1 procedures
  if missing.isEmpty then []
  else
    [⟨"ERROR", "CUPS001",
      "Procedimientos sin código CUPS en registros: " ++ String.intercalate (", ") missing ++ "."⟩]

/-- Target document type used by `validate_rips`: the invoice record's,
overridden by a truthy user-record value. -/
def target_document_type (invoice : RipsInvoiceRecord) (user : Option RipsUserRecord) :
    Option String :=
  match user with
  | some u => if u.document_type != "" then some u.document_type else invoice.document_type
  | none => invoice.document_type

/-- Target document number used by `validate_rips`. -/
def target_document_number (invoice : RipsInvoiceRecord) (user : Option RipsUserRecord) :
    Option String :=
  match user with
  | some u => if u.document_number != "" then some u.document_number else invoice.document_number
  | none => invoice.document_number

/-- The confirmation message emitted when no rule found anything. -/
def val000_message : ValidationMessage :=
  ⟨"INFO", "VAL000", "Registros validados sin inconsistencias detectadas."⟩

/-- Model of `validate_rips`: runs the four rules in order, accumulating their
messages, and falls back to the single `INFO VAL000` confirmation when no
rule produced a message. -/
def validate_rips (invoice : RipsInvoiceRecord) (user : Option RipsUserRecord)
    (procedures : List RipsProcedureRecord)
    (consultations : List RipsConsultationRecord)
    (medications : List RipsMedicationRecord)
    (other_services : List RipsOtherServiceRecord) : List ValidationMessage :=
  let messages :=
    validate_documents (target_document_type invoice user) (target_document_number invoice user)
      procedures consultations medications other_services ++
    validate_totals invoice procedures consultations medications other_services ++
    validate_diagnoses procedures consultations medications other_services ++
    validate_cups procedures
  if messages.isEmpty then [val000_message] else messages

/-! ## Invoice parser (`invoice_parser.py`) -/

/-- Python `value.replace("COP", "")`: removes every (non-overlapping,
left-to-right) occurrence of the three-character label. -/
def remove_cop : List Char → List Char
  | 'C' :: 'O' :: 'P' :: rest => remove_cop rest
  | c :: rest => c :: remove_cop rest
  | [] => []

/-- Python `value.split(".")`. -/
def split_dot : List Char → List Char → List (List Char)
  | [], acc => [acc.reverse]
  | '.' :: rest, acc => acc.reverse :: split_dot rest []
  | c :: rest, acc => split_dot rest (c :: acc)

/-- Python `"".join(parts[:-1]) + "." + parts[-1]`: keep only the last separator
as the decimal point. -/
def collapse_dots (parts : List (List Char)) : List Char :=
  parts.dropLast.flatten ++ '.' :: (parts.getLast?).getD []

/-- Exponent tail of the `Decimal` literal grammar: empty, or
`("e"|"E") sign? digits`, consuming the whole remainder.  Returns the scale
factor. -/
def dec_exponent : List Char → Option ℚ
  | [] => some 1
  | c :: t =>
    if c == 'e' || c == 'E' then
      let (neg, t1) : Bool × List Char :=
        match t with
        | '+' :: u => (false, u)
        | '-' :: u => (true, u)
        | u => (false, u)
      let ed := t1.takeWhile Char.isDigit
      let rest := t1.dropWhile Char.isDigit
      if ed.isEmpty || !rest.isEmpty then none
      else if neg then some (1 / 10 ^ digits_val ed) else some ((10 : ℚ) ^ digits_val ed)
    else none

/-- The numeric-literal grammar accepted by `Decimal(text)`:
`sign? (digits ("." digits?)? | "." digits) exponent?`.  `none` models the
`InvalidOperation` branch.  (`Decimal`'s special values NaN/Infinity are
outside the model.) -/
def dec_of_chars (l : List Char) : Option ℚ :=
  let (sgn, l1) : ℚ × List Char :=
    match l with
    | '+' :: t => (1, t)
    | '-' :: t => (-1, t)
    | t => (1, t)
  let ip := l1.takeWhile Char.isDigit
  let r1 := l1.dropWhile Char.isDigit
  match r1 with
  | '.' :: t =>
    let fp := t.takeWhile Char.isDigit
    let r2 := t.dropWhile Char.isDigit
    if ip.isEmpty && fp.isEmpty then none
    else
      (dec_exponent r2).map (fun e =>
        sgn * ((digits_val ip : ℚ) + (digits_val fp : ℚ) / 10 ^ fp.length) * e)
  | _ =>
    if ip.isEmpty then none
    else (dec_exponent r1).map (fun e => sgn * (digits_val ip : ℚ) * e)

/-- Model of `InvoiceParser._parse_decimal`: the tolerant monetary normalizer.
`none` models a `None` cell. -/
def parse_decimal (raw_value : Option String) : ℚ :=
  match raw_value with
  | none => 0
  | some raw =>
    let value := trim_chars raw.data
    if value.isEmpty then 0
    else
      let v1 := value.filter (fun c => c != '$')
      let v2 := remove_cop v1
      let v3 := v2.filter (fun c => c != ' ')
      let v4 := v3.map (fun c => if c == ',' then '.' else c)
      let v5 := if v4.count '.' > 1 then collapse_dots (split_dot v4 []) else v4
      match dec_of_chars v5 with
      | some q => q
      | none =>
        let digits := v5.filter Char.isDigit
        if digits.isEmpty then 0
        else if digits.length ≤ 2 then (digits_val digits : ℚ) / 100
        else
          (digits_val (digits.take (digits.length - 2)) : ℚ) +
            (digits_val (digits.drop (digits.length - 2)) : ℚ) / 100

/-- Python `row[i]` on a table row, for rows long enough (a shorter row
would raise `IndexError` in the source; the theorems below quantify over
rows carrying all eight cells). -/
def cell_str (row : List (Option String)) (i : Nat) : Option String :=
  row.getD i none

/-- Model of `InvoiceParser._clean_description`. -/
def clean_description (value : Option String) : Option String :=
  match value with
  | none => none
  | some v =>
    if v == "" then none
    else some (String.intercalate (" ") (((v.data.splitOnP is_space_char).filter
      (fun w => !w.isEmpty)).map (fun w => String.mk w)))

/-- The `InvoiceLine` built from one accepted table row in
`_extract_lines_from_tables` (cells: 0 = line id, 1 = code, 2 = description,
5 = quantity, 6 = unit price, 7 = line total), including the
`unit price × quantity` fallback when the extracted line total is zero. -/
def line_of_row (row : List (Option String)) : Option InvoiceLine :=
  let first_cell := trim_str ((cell_str row 0).getD "")
  if first_cell == "" then none
  else if (upper_str first_cell).startsWith ("SUBTOTAL") then none
  else
    let code0 := trim_str ((cell_str row 1).getD "")
    let code : Option String := if code0 == "" then none else some code0
    let description := clean_description (cell_str row 2)
    let quantity := parse_decimal (cell_str row 5)
    let unit_amount := parse_decimal (cell_str row 6)
    let line_total0 := parse_decimal (cell_str row 7)
    let line_total :=
      if line_total0 = 0 ∧ unit_amount ≠ 0 ∧ quantity ≠ 0 then unit_amount * quantity
      else line_total0
    some
      { line_id := some first_cell
        cups_code := code
        description := description
        quantity := py_or_q quantity 0
        price_amount := unit_amount
        line_extension_amount := line_total }

/-- The lines `_extract_lines_from_tables` draws from one table: skipped
unless it has a header row plus data rows and its header contains both a
"codigo" and a "nombre" cell; blank-first-cell and SUBTOTAL rows are
skipped. -/
def table_lines (table : List (List (Option String))) : List InvoiceLine :=
  match table with
  | [] => []
  | header_row :: rows =>
    if rows.isEmpty then []
    else
      let header := header_row.map (fun c => lower_str (trim_str (c.getD "")))
      if header.contains ("codigo") && header.contains ("nombre") then
        rows.filterMap (fun row => if row.isEmpty then none else line_of_row row)
      else []

/-- Model of `InvoiceParser._extract_lines_from_tables`. -/
def extract_lines_from_tables (tables : List (List (List (Option String)))) :
    List InvoiceLine :=
  (tables.map table_lines).flatten

/-- Leap year (`calendar` rule used by `datetime`). -/
def is_leap (y : Nat) : Bool :=
  y % 4 == 0 && (y % 100 != 0 || y % 400 == 0)

/-- Days in a month, as validated by `datetime.strptime`. -/
def days_in_month (y m : Nat) : Nat :=
  if m == 2 then (if is_leap y then 29 else 28)
  else if m == 4 || m == 6 || m == 9 || m == 11 then 30
  else 31

/-- The calendar validation `datetime.strptime` applies to a day/month/year
triple (`ValueError` on failure, modelled as `none`). -/
def strp_validate (d m y : Nat) : Option DateTime :=
  if 1 ≤ m ∧ m ≤ 12 ∧ 1 ≤ d ∧ d ≤ days_in_month y m ∧ 1 ≤ y ∧ y ≤ 9999 then
    some ⟨y, m, d⟩
  else none

/-- Two-digit numeral value. -/
def dval2 (a b : Char) : Nat :=
  digits_val [a, b]

/-- Four-digit numeral value. -/
def dval4 (a b c d : Char) : Nat :=
  digits_val [a, b, c, d]

/-- Match of `(\d{2}/\d{2}/\d{4})` at the head of the text, as
(day, month, year). -/
def match_dmy_slash_at : List Char → Option (Nat × Nat × Nat)
  | a :: b :: '/' :: c :: d :: '/' :: e :: f :: g :: h :: _ =>
    if ([a, b, c, d, e, f, g, h]).all Char.isDigit then
      some (dval2 a b, dval2 c d, dval4 e f g h)
    else none
  | _ => none

/-- Match of `(\d{2}-\d{2}-\d{4})` at the head of the text. -/
def match_dmy_dash_at : List Char → Option (Nat × Nat × Nat)
  | a :: b :: '-' :: c :: d :: '-' :: e :: f :: g :: h :: _ =>
    if ([a, b, c, d, e, f, g, h]).all Char.isDigit then
      some (dval2 a b, dval2 c d, dval4 e f g h)
    else none
  | _ => none

/-- Match of `(\d{4}-\d{2}-\d{2})` at the head of the text, as
(day, month, year). -/
def match_iso_at : List Char → Option (Nat × Nat × Nat)
  | a :: b :: c :: d :: '-' :: e :: f :: '-' :: g :: h :: _ =>
    if ([a, b, c, d, e, f, g, h]).all Char.isDigit then
      some (dval2 g h, dval2 e f, dval4 a b c d)
    else none
  | _ => none

/-- Model of `strptime`'s `%y` century rule: 0–68 map to 2000–2068, 69–99 to
1969–1999. -/
def y2_to_year (yy : Nat) : Nat :=
  if yy ≤ 68 then 2000 + yy else 1900 + yy

/-- Model of `(\d{1,2}/\d{1,2}/\d{2})` backtracking, last alternative: one-digit day,
one-digit month. -/
def match_dmy2_tail3 : List Char → Option (Nat × Nat × Nat)
  | a :: '/' :: c :: '/' :: e :: f :: _ =>
    if ([a, c, e, f]).all Char.isDigit then
      some (a.toNat - 48, c.toNat - 48, y2_to_year (dval2 e f))
    else none
  | _ => none

/-- Model of `(\d{1,2}/\d{1,2}/\d{2})` backtracking, third alternative: one-digit
day, two-digit month. -/
def match_dmy2_tail2 (l : List Char) : Option (Nat × Nat × Nat) :=
  match l with
  | a :: '/' :: c :: d :: '/' :: e :: f :: _ =>
    if ([a, c, d, e, f]).all Char.isDigit then
      some (a.toNat - 48, dval2 c d, y2_to_year (dval2 e f))
    else match_dmy2_tail3 l
  | _ => match_dmy2_tail3 l

/-- Model of `(\d{1,2}/\d{1,2}/\d{2})` backtracking, second alternative: two-digit
day, one-digit month. -/
def match_dmy2_tail1 (l : List Char) : Option (Nat × Nat × Nat) :=
  match l with
  | a :: b :: '/' :: c :: '/' :: e :: f :: _ =>
    if ([a, b, c, e, f]).all Char.isDigit then
      some (dval2 a b, c.toNat - 48, y2_to_year (dval2 e f))
    else match_dmy2_tail2 l
  | _ => match_dmy2_tail2 l

/-- Match of `(\d{1,2}/\d{1,2}/\d{2})` at the head of the text, with the
regex engine's greedy backtracking order (two-digit day before one-digit
day, two-digit month before one-digit month). -/
def match_dmy2_at (l : List Char) : Option (Nat × Nat × Nat) :=
  match l with
  | a :: b :: '/' :: c :: d :: '/' :: e :: f :: _ =>
    if ([a, b, c, d, e, f]).all Char.isDigit then
      some (dval2 a b, dval2 c d, y2_to_year (dval2 e f))
    else match_dmy2_tail1 l
  | _ => match_dmy2_tail1 l

/-- Model of `re.search`: leftmost position where the position matcher succeeds. -/
def re_scan (f : List Char → Option (Nat × Nat × Nat)) :
    List Char → Option (Nat × Nat × Nat)
  | [] => f []
  | l@(_ :: t) =>
    match f l with
    | some r => some r
    | none => re_scan f t

/-- The four `DATE_PATTERNS` format/pattern pairs, in source order. -/
inductive DateFmt where
  | dmy_slash
  | dmy_dash
  | iso
  | dmy_slash2
deriving DecidableEq, Repr

/-- Model of `DATE_PATTERNS`, in priority order. -/
def DATE_PATTERNS : List DateFmt :=
  [DateFmt.dmy_slash, DateFmt.dmy_dash, DateFmt.iso, DateFmt.dmy_slash2]

/-- One iteration of the `_extract_issue_date` loop: search for the
pattern's leftmost match and validate it with `strptime`; `none` when the
pattern does not match or parsing raises `ValueError`. -/
def try_date_pattern (fmt : DateFmt) (text : List Char) : Option DateTime :=
  let matcher :=
    match fmt with
    | DateFmt.dmy_slash => match_dmy_slash_at
    | DateFmt.dmy_dash => match_dmy_dash_at
    | DateFmt.iso => match_iso_at
    | DateFmt.dmy_slash2 => match_dmy2_at
  match re_scan matcher text with
  | some (d, m, y) => strp_validate d m y
  | none => none

/-- The loop of `InvoiceParser._extract_issue_date` over the pattern list. -/
def extract_issue_date_go : List DateFmt → List Char → Except String DateTime
  | [], _ => Except.error ("No se pudo determinar la fecha de la factura")
  | fmt :: rest, text =>
    match try_date_pattern fmt text with
    | some d => Except.ok d
    | none => extract_issue_date_go rest text

/-- Model of `InvoiceParser._extract_issue_date`: the only extraction step that
raises (`ValueError`, modelled as `Except.error`) when no pattern yields a
valid date. -/
def extract_issue_date (text : String) : Except String DateTime :=
  extract_issue_date_go DATE_PATTERNS text.data

/-! ## Respecification definitions and concrete scenario inputs
used by the theorems below -/

/-- A patient with every extracted field absent (scenario B: a history with
no identity markers at all). -/
def empty_patient : PatientInfo :=
  ⟨none, none, none, none, none, none, none, none, none, none, none, none, none, none, []⟩

/-- Scenario B annex: carries patient document number "12345678". -/
def scenarioB_annex : AnnexData :=
  ⟨⟨none, some ("12345678"), none, none, none, none, none⟩, [], []⟩

/-- Counterexample patient for C2: a history document number with an inner
space. -/
def c2_patient : PatientInfo :=
  { empty_patient with document_number := some ("12 34") }

/-- The concatenation of the four validation rules' messages, in order. -/
def rule_messages (invoice : RipsInvoiceRecord) (user : Option RipsUserRecord)
    (procedures : List RipsProcedureRecord)
    (consultations : List RipsConsultationRecord)
    (medications : List RipsMedicationRecord)
    (other_services : List RipsOtherServiceRecord) : List ValidationMessage :=
  validate_documents (target_document_type invoice user) (target_document_number invoice user)
    procedures consultations medications other_services ++
  validate_totals invoice procedures consultations medications other_services ++
  validate_diagnoses procedures consultations medications other_services ++
  validate_cups procedures

/-- The canonical total the spec describes: the sum of procedure net values
when positive, else the sum of consultation net values plus medication and
other-service total values. -/
def canonical_total (procedures : List RipsProcedureRecord)
    (consultations : List RipsConsultationRecord)
    (medications : List RipsMedicationRecord)
    (other_services : List RipsOtherServiceRecord) : ℚ :=
  if safe_sum (procedures.map (fun r => r.net_value)) > DECIMAL_ZERO then
    safe_sum (procedures.map (fun r => r.net_value))
  else
    safe_sum (consultations.map (fun r => r.net_value)) +
    safe_sum (medications.map (fun r => r.total_value)) +
    safe_sum (other_services.map (fun r => r.total_value))

/-- Scenario D invoice: stated total 100000. -/
def c4s_invoice : RipsInvoiceRecord :=
  ⟨"P", none, "F1", ⟨2024, 1, 1⟩, 100000, some ("CC"), some ("123"), none, none, 0, 0, 0⟩

/-- Scenario D procedure record: net value 100050. -/
def c4s_proc : RipsProcedureRecord :=
  ⟨"P", "F1", "CC", "123", ⟨2024, 1, 1⟩, none, "1", "890201", some ("Z000"), none, none,
   none, 0, 100050, none⟩

/-- C4 counterexample invoice: stated total -100. -/
def c4x_invoice : RipsInvoiceRecord :=
  ⟨"P", none, "F1", ⟨2024, 1, 1⟩, -100, some ("CC"), some ("123"), none, none, 0, 0, 0⟩

/-- C4 counterexample procedure record: net value -100, so the procedure
sum is nonzero but not positive. -/
def c4x_proc : RipsProcedureRecord :=
  ⟨"P", "F1", "CC", "123", ⟨2024, 1, 1⟩, none, "1", "890201", some ("Z000"), none, none,
   none, 0, -100, none⟩

/-- The offending-record descriptions the diagnoses rule lists: each record
with an empty principal-diagnosis code, tagged with its record type and
1-based index. -/
def dx_offenders (procedures : List RipsProcedureRecord)
    (consultations : List RipsConsultationRecord)
    (medications : List RipsMedicationRecord)
    (other_services : List RipsOtherServiceRecord) : List String :=
  ((procedures.enumFrom 1).filterMap (fun p =>
    if opt_truthy p.2.diagnosis_code then none else some (dx_item "AP" p.1))) ++
  ((consultations.enumFrom 1).filterMap (fun p =>
    if opt_truthy p.2.principal_diagnosis then none else some (dx_item "AC" p.1))) ++
  ((medications.enumFrom 1).filterMap (fun p =>
    if opt_truthy p.2.principal_diagnosis then none else some (dx_item "AM" p.1))) ++
  ((other_services.enumFrom 1).filterMap (fun p =>
    if opt_truthy p.2.principal_diagnosis then none else some (dx_item "AT" p.1)))

/-- Scenario C invoice (totals, documents and CUPS otherwise clean). -/
def c5s_invoice : RipsInvoiceRecord :=
  ⟨"P", none, "F1", ⟨2024, 1, 1⟩, 100000, some ("CC"), some ("123"), none, none, 0, 0, 0⟩

/-- Scenario C procedure record: missing its principal-diagnosis code. -/
def c5s_proc : RipsProcedureRecord :=
  ⟨"P", "F1", "CC", "123", ⟨2024, 1, 1⟩, none, "1", "890201", none, none, none,
   none, 0, 100000, none⟩

/-- The value the spec (amended) ascribes to a consultation: for the first
invoice line whose stripped CUPS code equals the (nonempty) consultation
code, the line total when nonzero, else that line's unit price; zero when
no line matches or the code is empty. -/
def claim_line_value (lines : List InvoiceLine) (code : String) : ℚ :=
  if code == "" then 0
  else
    match lines.find? (fun l => trim_str (l.cups_code.getD "") == code) with
    | some l =>
      if l.line_extension_amount ≠ 0 then l.line_extension_amount else l.price_amount
    | none => 0

/-- C6 counterexample line: CUPS code "890201", extracted line total 0 but
unit price 45000. -/
def c6x_line : InvoiceLine :=
  ⟨some ("1"), some ("890201"), none, 1, 45000, 0⟩

/-- C6 counterexample invoice. -/
def c6x_invoice : InvoiceData :=
  ⟨"F1", ⟨2024, 1, 1⟩, some ("900-1"), some ("IPS"), none, none, 45000, "COP", [c6x_line]⟩

/-- C6 counterexample patient: one consultation with code "890201". -/
def c6x_patient : PatientInfo :=
  ⟨none, none, none, none, none, none, none, none, none, none, none, none, none, none,
   [⟨"890201", none, none, none, none, none⟩]⟩

/-- Scenario E line: line total 45000 (and a different unit price, to show
the line total is what is taken). -/
def c6s_line : InvoiceLine :=
  ⟨some ("1"), some ("890201"), none, 1, 40000, 45000⟩

/-- Scenario E invoice. -/
def c6s_invoice : InvoiceData :=
  ⟨"F1", ⟨2024, 1, 1⟩, some ("900-1"), some ("IPS"), none, none, 45000, "COP", [c6s_line]⟩

/-- An invoice for the C8 witness. -/
def c8w_invoice : InvoiceData :=
  ⟨"F1", ⟨2024, 1, 1⟩, some ("900-1"), some ("IPS"), none, none, 90000, "COP", []⟩

/-- First successful attempt of a list of parses. -/
def first_some : List (Option DateTime) → Option DateTime
  | [] => none
  | some d :: _ => some d
  | none :: rest => first_some rest

/-- The four dated attempts, in the spec's priority order: day/month/year
with slash, day/month/year with dash, ISO year-month-day, two-digit year. -/
def date_attempts (text : String) : List (Option DateTime) :=
  [try_date_pattern DateFmt.dmy_slash text.data,
   try_date_pattern DateFmt.dmy_dash text.data,
   try_date_pattern DateFmt.iso text.data,
   try_date_pattern DateFmt.dmy_slash2 text.data]

/-! ## General lemmas -/

theorem opt_truthy_some (o : Option String) (h : opt_truthy o = true) :
    o = some (o.getD "") := by
  cases o with
  | none => simp [opt_truthy] at h
  | some s => rfl

/-- The precedence chain of `resolve_document_type`, spelled out. -/
theorem resolve_type_chain (p : PatientInfo) (a : Option AnnexData) :
    resolve_document_type p a =
      (if opt_truthy p.document_type then upper_str (p.document_type.getD "")
       else if opt_truthy p.admission_document_type then
         upper_str (p.admission_document_type.getD "")
       else if opt_truthy (annex_document_type a) then
         upper_str ((annex_document_type a).getD "")
       else DOCUMENT_TYPE_DEFAULT) := by
  unfold resolve_document_type
  simp only [first_truthy]
  by_cases h1 : opt_truthy p.document_type
  · rcases hdt : p.document_type with _ | s
    · rw [hdt] at h1
      simp [opt_truthy] at h1
    · rw [hdt] at h1
      simp [h1, hdt]
  · simp only [h1, Bool.false_eq_true, if_false]
    by_cases h2 : opt_truthy p.admission_document_type
    · rcases hdt : p.admission_document_type with _ | s
      · rw [hdt] at h2
        simp [opt_truthy] at h2
      · rw [hdt] at h2
        simp [h2, hdt]
    · simp only [h2, Bool.false_eq_true, if_false]
      by_cases h3 : opt_truthy (annex_document_type a)
      · rcases hdt : annex_document_type a with _ | s
        · rw [hdt] at h3
          simp [opt_truthy] at h3
        · rw [hdt] at h3
          simp [h3, hdt]
      · simp only [h3, Bool.false_eq_true, if_false]
        have hcc : opt_truthy (some DOCUMENT_TYPE_DEFAULT) = true := by decide
        simp only [hcc, if_true]
        decide

/-- The precedence chain of `resolve_document_number`, spelled out. -/
theorem resolve_number_chain (p : PatientInfo) (a : Option AnnexData) :
    resolve_document_number p a =
      (if opt_truthy p.document_number then strip_spaces (p.document_number.getD "")
       else if opt_truthy p.admission_document_number then
         strip_spaces (p.admission_document_number.getD "")
       else if opt_truthy (annex_document_number a) then
         strip_spaces ((annex_document_number a).getD "")
       else "") := by
  unfold resolve_document_number
  simp only [first_truthy]
  by_cases h1 : opt_truthy p.document_number
  · rcases hdt : p.document_number with _ | s
    · rw [hdt] at h1
      simp [opt_truthy] at h1
    · rw [hdt] at h1
      simp [h1, hdt]
  · simp only [h1, Bool.false_eq_true, if_false]
    by_cases h2 : opt_truthy p.admission_document_number
    · rcases hdt : p.admission_document_number with _ | s
      · rw [hdt] at h2
        simp [opt_truthy] at h2
      · rw [hdt] at h2
        simp [h2, hdt]
    · simp only [h2, Bool.false_eq_true, if_false]
      by_cases h3 : opt_truthy (annex_document_number a)
      · rcases hdt : annex_document_number a with _ | s
        · rw [hdt] at h3
          simp [opt_truthy] at h3
        · rw [hdt] at h3
          simp [h3, hdt]
      · simp only [h3, Bool.false_eq_true, if_false]

theorem upper_char_not_lower (c : Char) : is_lower_ascii (upper_char c) = false := by
  unfold upper_char is_lower_ascii
  split
  · rename_i h
    have he : (Char.ofNatAux (c.toNat - 32) (Or.inl (by omega))).toNat = c.toNat - 32 := rfl
    rw [he]
    simp only [Bool.and_eq_false_iff, decide_eq_false_iff_not]
    left
    omega
  · rename_i h
    simp only [Bool.and_eq_false_iff, decide_eq_false_iff_not]
    omega

theorem upper_str_no_lower (s : String) :
    (upper_str s).data.all (fun c => !is_lower_ascii c) = true := by
  simp only [upper_str, List.all_eq_true]
  intro c hc
  rcases List.mem_map.mp hc with ⟨d, _, rfl⟩
  simp [upper_char_not_lower]

theorem strip_spaces_no_space (s : String) :
    (strip_spaces s).data.all (fun c => c != ' ') = true := by
  simp only [strip_spaces, List.all_eq_true]
  intro c hc
  exact List.mem_filter.mp hc |>.2

/-! ## Claims C1, C2, C10: document identity resolution -/

/-- C1: the builder resolves document identity with the fixed precedence
history type/number → history admission fields → annex type/number → the
default "CC" / empty number; in scenario B (history without a document
number, annex number "12345678") the resolved number is "12345678". -/
theorem c1_document_identity_precedence (p : PatientInfo) (a : Option AnnexData) :
    (resolve_document_type p a =
      (if opt_truthy p.document_type then upper_str (p.document_type.getD "")
       else if opt_truthy p.admission_document_type then
         upper_str (p.admission_document_type.getD "")
       else if opt_truthy (annex_document_type a) then
         upper_str ((annex_document_type a).getD "")
       else DOCUMENT_TYPE_DEFAULT))
    ∧ (resolve_document_number p a =
      (if opt_truthy p.document_number then strip_spaces (p.document_number.getD "")
       else if opt_truthy p.admission_document_number then
         strip_spaces (p.admission_document_number.getD "")
       else if opt_truthy (annex_document_number a) then
         strip_spaces ((annex_document_number a).getD "")
       else ""))
    ∧ empty_patient.document_number = none
    ∧ resolve_document_number empty_patient (some scenarioB_annex) = "12345678" :=
  ⟨resolve_type_chain p a, resolve_number_chain p a, rfl, by decide⟩

/-- C2 counterexample: with history document number "12 34" (and no other
candidate), the resolved number is the normalized "1234", which is not
equal to any of the three source candidates nor to the default empty
string — the claim's "always equals one of the three source candidates or
the default" fails as stated. -/
theorem c2_counterexample :
    resolve_document_number c2_patient none = "1234"
    ∧ c2_patient.document_number = some ("12 34")
    ∧ c2_patient.admission_document_number = none
    ∧ annex_document_number none = none
    ∧ ("1234" : String) ≠ "12 34"
    ∧ ("1234" : String) ≠ "" := by
  refine ⟨by decide, rfl, rfl, rfl, by decide, by decide⟩

/-- C2 (amended): resolution is deterministic and idempotent — on a fresh
builder the memoized resolvers return the pure resolution value, and a
second call returns the same value — and the resolved identity always
equals the normalization (upper-casing / space-stripping) of one of the
three source candidates, or the default ("CC" / empty string). -/
theorem c2_resolution_idempotent_and_sourced (invoice : InvoiceData) (p : PatientInfo)
    (pc : Option String) (a : Option AnnexData) :
    ((resolve_document_type_step (mk_builder invoice p pc a)).1 = resolve_document_type p a)
    ∧ ((resolve_document_number_step (mk_builder invoice p pc a)).1 =
        resolve_document_number p a)
    ∧ ((resolve_document_type_step ((resolve_document_type_step (mk_builder invoice p pc a)).2)).1 =
        (resolve_document_type_step (mk_builder invoice p pc a)).1)
    ∧ ((resolve_document_number_step ((resolve_document_number_step (mk_builder invoice p pc a)).2)).1 =
        (resolve_document_number_step (mk_builder invoice p pc a)).1)
    ∧ resolve_document_type p a ∈
        [upper_str (p.document_type.getD ""), upper_str (p.admission_document_type.getD ""),
         upper_str ((annex_document_type a).getD ""), DOCUMENT_TYPE_DEFAULT]
    ∧ resolve_document_number p a ∈
        [strip_spaces (p.document_number.getD ""), strip_spaces (p.admission_document_number.getD ""),
         strip_spaces ((annex_document_number a).getD ""), ""] := by
  refine ⟨rfl, rfl, ?_, rfl, ?_, ?_⟩
  · have step1 : resolve_document_type_step (mk_builder invoice p pc a) =
        (resolve_document_type p a,
         ⟨invoice, p, pc, a, some (resolve_document_type p a), none⟩) := rfl
    rw [step1]
    unfold resolve_document_type_step
    simp only
    split <;> rfl
  · rw [resolve_type_chain]
    split_ifs <;> simp
  · rw [resolve_number_chain]
    split_ifs <;> simp

/-- C10: the resolved document number contains no space character, and the
resolved document type contains no (ASCII) lower-case letter: the resolved
identity is a normalized form of the source candidate it was taken from. -/
theorem c10_resolved_identity_normalized (p : PatientInfo) (a : Option AnnexData) :
    ((resolve_document_number p a).data.all (fun c => c != ' ') = true)
    ∧ ((resolve_document_type p a).data.all (fun c => !is_lower_ascii c) = true) := by
  constructor
  · rw [resolve_number_chain]
    split_ifs <;> first
      | exact strip_spaces_no_space _
      | decide
  · rw [resolve_type_chain]
    split_ifs <;> first
      | exact upper_str_no_lower _
      | decide

/-! ## Claims C3, C4, C5: the validator -/

theorem countP_code_eq_zero (l : List ValidationMessage) (x : String)
    (h : l.all (fun m => m.code != x) = true) :
    l.countP (fun m => m.code == x) = 0 := by
  rw [List.countP_eq_zero]
  intro a ha
  have hx := List.all_eq_true.mp h a ha
  simpa using hx

theorem all_imp (l : List ValidationMessage) (p q : ValidationMessage → Bool)
    (h : l.all p = true) (himp : ∀ a, p a = true → q a = true) : l.all q = true := by
  rw [List.all_eq_true] at h ⊢
  exact fun a ha => himp a (h a ha)

/-- The documents rule only ever emits code DOC001. -/
theorem vdocs_code_ne (tt tn : Option String) (p : List RipsProcedureRecord)
    (c : List RipsConsultationRecord) (m : List RipsMedicationRecord)
    (o : List RipsOtherServiceRecord) (x : String) (hx : x ≠ "DOC001") :
    (validate_documents tt tn p c m o).all (fun msg => msg.code != x) = true := by
  simp only [validate_documents]
  split
  · rfl
  · simpa using fun hh => hx hh.symm

/-- The diagnoses rule only ever emits code DX001. -/
theorem vdx_code_ne (p : List RipsProcedureRecord)
    (c : List RipsConsultationRecord) (m : List RipsMedicationRecord)
    (o : List RipsOtherServiceRecord) (x : String) (hx : x ≠ "DX001") :
    (validate_diagnoses p c m o).all (fun msg => msg.code != x) = true := by
  simp only [validate_diagnoses]
  split
  · rfl
  · simpa using fun hh => hx hh.symm

/-- The CUPS rule only ever emits code CUPS001. -/
theorem vcups_code_ne (p : List RipsProcedureRecord) (x : String) (hx : x ≠ "CUPS001") :
    (validate_cups p).all (fun msg => msg.code != x) = true := by
  simp only [validate_cups]
  split
  · rfl
  · simpa using fun hh => hx hh.symm

/-- The totals rule only ever emits codes TOT001 and TOT002. -/
theorem vtot_code_ne (i : RipsInvoiceRecord) (p : List RipsProcedureRecord)
    (c : List RipsConsultationRecord) (m : List RipsMedicationRecord)
    (o : List RipsOtherServiceRecord) (x : String) (hx1 : x ≠ "TOT001")
    (hx2 : x ≠ "TOT002") :
    (validate_totals i p c m o).all (fun msg => msg.code != x) = true := by
  have h1 : ("TOT001" : String) ≠ x := fun hh => hx1 hh.symm
  have h2 : ("TOT002" : String) ≠ x := fun hh => hx2 hh.symm
  unfold validate_totals
  simp only [List.all_append]
  rw [Bool.and_eq_true]
  constructor
  · split
    · simp [h2]
    · rfl
  · split_ifs <;> simp [h1]

/-- TOT001 count of the totals rule: 1 exactly when the invoice total is off
from the canonical total by more than the tolerance. -/
theorem vtot_tot001_count (i : RipsInvoiceRecord) (p : List RipsProcedureRecord)
    (c : List RipsConsultationRecord) (m : List RipsMedicationRecord)
    (o : List RipsOtherServiceRecord) :
    (validate_totals i p c m o).countP (fun msg => msg.code == "TOT001") =
      (if q_abs (py_or_q i.total_value DECIMAL_ZERO - canonical_total p c m o) > TOLERANCE
       then 1 else 0) := by
  unfold validate_totals canonical_total
  simp only [List.countP_append]
  split_ifs <;> simp_all

/-- Every TOT001 message of the totals rule carries severity WARNING. -/
theorem vtot_tot001_warning (i : RipsInvoiceRecord) (p : List RipsProcedureRecord)
    (c : List RipsConsultationRecord) (m : List RipsMedicationRecord)
    (o : List RipsOtherServiceRecord) :
    (validate_totals i p c m o).all
      (fun msg => msg.code != "TOT001" || msg.severity == "WARNING") = true := by
  unfold validate_totals
  simp only [List.all_append]
  rw [Bool.and_eq_true]
  constructor
  · split
    · simp
    · rfl
  · split_ifs <;> simp

/-- TOT001 count of the whole validator. -/
theorem validate_rips_tot001_count (invoice : RipsInvoiceRecord)
    (user : Option RipsUserRecord) (procedures : List RipsProcedureRecord)
    (consultations : List RipsConsultationRecord)
    (medications : List RipsMedicationRecord)
    (other_services : List RipsOtherServiceRecord) :
    (validate_rips invoice user procedures consultations medications other_services).countP
        (fun msg => msg.code == "TOT001") =
      (if q_abs (py_or_q invoice.total_value DECIMAL_ZERO -
          canonical_total procedures consultations medications other_services) > TOLERANCE
       then 1 else 0) := by
  have e : validate_rips invoice user procedures consultations medications other_services =
      (if (rule_messages invoice user procedures consultations medications other_services).isEmpty
       then [val000_message]
       else rule_messages invoice user procedures consultations medications other_services) := rfl
  rw [e]
  by_cases h :
      (rule_messages invoice user procedures consultations medications other_services).isEmpty
  · rw [if_pos h]
    have h' := List.isEmpty_iff.mp h
    unfold rule_messages at h'
    rw [List.append_eq_nil] at h'
    rw [List.append_eq_nil] at h'
    rw [List.append_eq_nil] at h'
    have hB := h'.1.1.2
    rw [← vtot_tot001_count invoice procedures consultations medications other_services, hB]
    decide
  · rw [if_neg h]
    unfold rule_messages
    simp only [List.countP_append]
    rw [countP_code_eq_zero _ "TOT001"
      (vdocs_code_ne _ _ _ _ _ _ "TOT001" (by decide))]
    rw [countP_code_eq_zero _ "TOT001"
      (vdx_code_ne _ _ _ _ "TOT001" (by decide))]
    rw [countP_code_eq_zero _ "TOT001"
      (vcups_code_ne _ "TOT001" (by decide))]
    rw [vtot_tot001_count]
    omega

/-- C3: the validator never returns an empty list — it returns exactly the
concatenated rule messages, or the single `INFO VAL000` confirmation when
no rule produced a message. -/
theorem c3_validator_never_empty (invoice : RipsInvoiceRecord) (user : Option RipsUserRecord)
    (procedures : List RipsProcedureRecord)
    (consultations : List RipsConsultationRecord)
    (medications : List RipsMedicationRecord)
    (other_services : List RipsOtherServiceRecord) :
    validate_rips invoice user procedures consultations medications other_services ≠ []
    ∧ validate_rips invoice user procedures consultations medications other_services =
      (if (rule_messages invoice user procedures consultations medications other_services).isEmpty
       then [val000_message]
       else rule_messages invoice user procedures consultations medications other_services)
    ∧ val000_message.severity = "INFO"
    ∧ val000_message.code = "VAL000" := by
  have e : validate_rips invoice user procedures consultations medications other_services =
      (if (rule_messages invoice user procedures consultations medications other_services).isEmpty
       then [val000_message]
       else rule_messages invoice user procedures consultations medications other_services) := rfl
  refine ⟨?_, e, rfl, rfl⟩
  rw [e]
  by_cases h :
      (rule_messages invoice user procedures consultations medications other_services).isEmpty
  · simp [h]
  · simp only [h, Bool.false_eq_true, if_false]
    intro hnil
    rw [hnil] at h
    exact h rfl

/-- C4 counterexample: a procedure sum of -100 is nonzero, and it equals the
invoice's stated total, so under the claim's "canonical total = procedure
sum when that sum is nonzero" no TOT001 warning may be emitted (difference
zero); the code, which requires a *positive* procedure sum, falls back to
the (zero) secondary sum and does emit exactly one TOT001. -/
theorem c4_counterexample :
    safe_sum (([c4x_proc]).map (fun r => r.net_value)) = -100
    ∧ safe_sum (([c4x_proc]).map (fun r => r.net_value)) ≠ 0
    ∧ q_abs (py_or_q c4x_invoice.total_value DECIMAL_ZERO -
        safe_sum (([c4x_proc]).map (fun r => r.net_value))) ≤ TOLERANCE
    ∧ (validate_rips c4x_invoice none [c4x_proc] [] [] []).countP
        (fun msg => msg.code == "TOT001") = 1 := by
  refine ⟨by norm_num [safe_sum, c4x_proc, DECIMAL_ZERO],
          by norm_num [safe_sum, c4x_proc, DECIMAL_ZERO],
          by norm_num [safe_sum, c4x_proc, c4x_invoice, py_or_q, q_abs, DECIMAL_ZERO, TOLERANCE],
          ?_⟩
  rw [validate_rips_tot001_count]
  norm_num [canonical_total, safe_sum, c4x_proc, c4x_invoice, py_or_q, q_abs,
    DECIMAL_ZERO, TOLERANCE]

/-- C4 (amended: the procedure sum is preferred when *positive*, not merely
nonzero): the canonical total is the procedure net-value sum when positive,
else the consultation + medication + other-service sum; exactly one WARNING
TOT001 is emitted when the invoice's stated total differs from it by more
than the tolerance of 1, and none otherwise; in scenario D (total 100000
against procedure sum 100050) one TOT001 is emitted, the signed difference
being -50, of magnitude 50. -/
theorem c4_total_reconciliation (invoice : RipsInvoiceRecord) (user : Option RipsUserRecord)
    (procedures : List RipsProcedureRecord)
    (consultations : List RipsConsultationRecord)
    (medications : List RipsMedicationRecord)
    (other_services : List RipsOtherServiceRecord) :
    ((validate_rips invoice user procedures consultations medications other_services).countP
        (fun msg => msg.code == "TOT001") =
      (if q_abs (py_or_q invoice.total_value DECIMAL_ZERO -
          canonical_total procedures consultations medications other_services) > TOLERANCE
       then 1 else 0))
    ∧ ((validate_rips invoice user procedures consultations medications other_services).all
        (fun msg => msg.code != "TOT001" || msg.severity == "WARNING") = true)
    ∧ (validate_rips c4s_invoice none [c4s_proc] [] [] []).countP
        (fun msg => msg.code == "TOT001") = 1
    ∧ py_or_q c4s_invoice.total_value DECIMAL_ZERO -
        canonical_total [c4s_proc] [] [] [] = -50
    ∧ q_abs (py_or_q c4s_invoice.total_value DECIMAL_ZERO -
        canonical_total [c4s_proc] [] [] []) = 50 := by
  refine ⟨validate_rips_tot001_count invoice user procedures consultations medications
      other_services, ?_, ?_,
    by norm_num [canonical_total, safe_sum, c4s_proc, c4s_invoice, py_or_q, q_abs, DECIMAL_ZERO],
    by norm_num [canonical_total, safe_sum, c4s_proc, c4s_invoice, py_or_q, q_abs, DECIMAL_ZERO]⟩
  · have e : validate_rips invoice user procedures consultations medications other_services =
        (if (rule_messages invoice user procedures consultations medications
            other_services).isEmpty
         then [val000_message]
         else rule_messages invoice user procedures consultations medications
            other_services) := rfl
    rw [e]
    by_cases h :
        (rule_messages invoice user procedures consultations medications other_services).isEmpty
    · rw [if_pos h]
      decide
    · rw [if_neg h]
      unfold rule_messages
      simp only [List.all_append]
      rw [Bool.and_eq_true, Bool.and_eq_true, Bool.and_eq_true]
      refine ⟨⟨⟨?_, ?_⟩, ?_⟩, ?_⟩
      · exact all_imp _ _ _ (vdocs_code_ne _ _ _ _ _ _ "TOT001" (by decide))
          (fun a ha => by simp_all)
      · exact vtot_tot001_warning _ _ _ _ _
      · exact all_imp _ _ _ (vdx_code_ne _ _ _ _ "TOT001" (by decide))
          (fun a ha => by simp_all)
      · exact all_imp _ _ _ (vcups_code_ne _ "TOT001" (by decide))
          (fun a ha => by simp_all)
  · rw [validate_rips_tot001_count]
    norm_num [canonical_total, safe_sum, c4s_proc, c4s_invoice, py_or_q, q_abs,
      DECIMAL_ZERO, TOLERANCE]

theorem collect_indexed_eq_enumFrom (f : Nat → α → Option String) (n : Nat) (l : List α) :
    collect_indexed f n l = (l.enumFrom n).filterMap (fun p => f p.1 p.2) := by
  induction l generalizing n with
  | nil => rfl
  | cons a as ih =>
    simp only [collect_indexed, List.enumFrom, List.filterMap_cons, ih]
    cases f n a <;> simp

/-- The diagnoses rule aggregates all offenders into one ERROR DX001. -/
theorem vdx_structure (p : List RipsProcedureRecord)
    (c : List RipsConsultationRecord) (m : List RipsMedicationRecord)
    (o : List RipsOtherServiceRecord) :
    validate_diagnoses p c m o =
      (if (dx_offenders p c m o).isEmpty then []
       else [⟨"ERROR", "DX001",
         "Diagnósticos ausentes: " ++ String.intercalate ("; ") (dx_offenders p c m o)⟩]) := by
  unfold validate_diagnoses dx_offenders
  simp only [collect_indexed_eq_enumFrom]

theorem vdx_dx001_count (p : List RipsProcedureRecord)
    (c : List RipsConsultationRecord) (m : List RipsMedicationRecord)
    (o : List RipsOtherServiceRecord) :
    (validate_diagnoses p c m o).countP (fun msg => msg.code == "DX001") =
      (if (dx_offenders p c m o).isEmpty then 0 else 1) := by
  rw [vdx_structure]
  split
  · rfl
  · simp

/-- DX001 count of the whole validator. -/
theorem validate_rips_dx001_count (invoice : RipsInvoiceRecord)
    (user : Option RipsUserRecord) (procedures : List RipsProcedureRecord)
    (consultations : List RipsConsultationRecord)
    (medications : List RipsMedicationRecord)
    (other_services : List RipsOtherServiceRecord) :
    (validate_rips invoice user procedures consultations medications other_services).countP
        (fun msg => msg.code == "DX001") =
      (if (dx_offenders procedures consultations medications other_services).isEmpty
       then 0 else 1) := by
  have e : validate_rips invoice user procedures consultations medications other_services =
      (if (rule_messages invoice user procedures consultations medications other_services).isEmpty
       then [val000_message]
       else rule_messages invoice user procedures consultations medications other_services) := rfl
  rw [e]
  by_cases h :
      (rule_messages invoice user procedures consultations medications other_services).isEmpty
  · rw [if_pos h]
    have h' := List.isEmpty_iff.mp h
    unfold rule_messages at h'
    rw [List.append_eq_nil] at h'
    rw [List.append_eq_nil] at h'
    rw [List.append_eq_nil] at h'
    have hC := h'.1.2
    rw [vdx_structure] at hC
    by_cases ho :
        (dx_offenders procedures consultations medications other_services).isEmpty
    · rw [if_pos ho]
      decide
    · rw [if_neg ho] at hC
      exact absurd hC (by simp)
  · rw [if_neg h]
    unfold rule_messages
    simp only [List.countP_append]
    rw [countP_code_eq_zero _ "DX001"
      (vdocs_code_ne _ _ _ _ _ _ "DX001" (by decide))]
    rw [countP_code_eq_zero _ "DX001"
      (vtot_code_ne _ _ _ _ _ "DX001" (by decide) (by decide))]
    rw [countP_code_eq_zero _ "DX001"
      (vcups_code_ne _ "DX001" (by decide))]
    rw [vdx_dx001_count]
    split <;> omega

/-- C5: the diagnoses rule aggregates every record with an empty
principal-diagnosis code into exactly one ERROR DX001 listing each
offending record by record type and 1-based index, and emits nothing when
every record carries a diagnosis; in scenario C (one procedure record
missing its diagnosis) the validator returns exactly one message, the
ERROR DX001 naming AP[1]. -/
theorem c5_diagnosis_aggregation (invoice : RipsInvoiceRecord) (user : Option RipsUserRecord)
    (procedures : List RipsProcedureRecord)
    (consultations : List RipsConsultationRecord)
    (medications : List RipsMedicationRecord)
    (other_services : List RipsOtherServiceRecord) :
    (validate_diagnoses procedures consultations medications other_services =
      (if (dx_offenders procedures consultations medications other_services).isEmpty then []
       else [⟨"ERROR", "DX001",
         "Diagnósticos ausentes: " ++ String.intercalate ("; ")
           (dx_offenders procedures consultations medications other_services)⟩]))
    ∧ ((validate_rips invoice user procedures consultations medications other_services).countP
        (fun msg => msg.code == "DX001") =
      (if (dx_offenders procedures consultations medications other_services).isEmpty
       then 0 else 1))
    ∧ validate_rips c5s_invoice none [c5s_proc] [] [] [] =
        [⟨"ERROR", "DX001", "Diagnósticos ausentes: AP[1] sin diagnóstico principal"⟩] := by
  refine ⟨vdx_structure procedures consultations medications other_services,
    validate_rips_dx001_count invoice user procedures consultations medications other_services,
    ?_⟩
  norm_num [validate_rips, validate_documents, validate_totals, validate_diagnoses,
    validate_cups, doc_check, collect_indexed, dx_item, safe_sum, target_document_type,
    target_document_number, c5s_invoice, c5s_proc, py_or_q, q_abs, DECIMAL_ZERO, TOLERANCE,
    opt_truthy, val000_message]
  decide

/-! ## Claim C6: consultation net value -/

theorem match_line_loop_eq_find (lines : List InvoiceLine) (c : String) :
    match_line_loop lines c =
      (match lines.find? (fun l => trim_str (l.cups_code.getD "") == c) with
       | some l =>
         if l.line_extension_amount ≠ 0 then l.line_extension_amount else l.price_amount
       | none => 0) := by
  induction lines with
  | nil => rfl
  | cons a as ih =>
    simp only [match_line_loop, List.find?]
    by_cases h : trim_str (a.cups_code.getD "") == c
    · simp only [h, cond_true, if_true]
      unfold py_or_q
      split
      · simp
      · simp_all
    · simp only [h, Bool.false_eq_true, if_false, cond_false]
      exact ih

theorem match_line_value_eq_claim (lines : List InvoiceLine) (code : String) :
    match_line_value lines (some code) = claim_line_value lines code := by
  unfold match_line_value claim_line_value
  by_cases h : code == ""
  · simp [h]
  · simp only [h, Bool.false_eq_true, if_false]
    exact match_line_loop_eq_find lines code

/-- Net values of the built consultation records, one per consultation. -/
theorem build_consultation_net (b : RipsBuilder) :
    (build_consultation_records b).map (fun r => r.net_value) =
      b.patient.consultations.map (fun c => match_line_value b.invoice.lines (some c.code)) := by
  unfold build_consultation_records
  rw [List.map_map]
  rfl

/-- C6 counterexample: the consultation's code matches the (single, hence
first) invoice line, whose line total is 0 — the claim says the record's
net value equals that line total, i.e. 0 — but the code falls back to the
line's unit price and produces 45000. -/
theorem c6_counterexample :
    ((build_consultation_records (mk_builder c6x_invoice c6x_patient none none)).map
      (fun r => r.net_value) = [45000])
    ∧ c6x_line.line_extension_amount = 0
    ∧ trim_str (c6x_line.cups_code.getD "") = "890201"
    ∧ c6x_invoice.lines = [c6x_line]
    ∧ (45000 : ℚ) ≠ 0 := by
  refine ⟨?_, rfl, by decide, rfl, by norm_num⟩
  rw [build_consultation_net]
  show [match_line_value c6x_invoice.lines (some ("890201"))] = [45000]
  rw [match_line_value_eq_claim]
  norm_num [claim_line_value, c6x_invoice, c6x_line, List.find?]
  decide

/-- C6 (amended: when the first matching line's extracted line total is
zero, the unit price is used instead; matching strips the line's CUPS code):
each consultation record's net value is `_match_line_value` of its code,
which equals the line total of the first invoice line whose stripped CUPS
code equals the (nonempty) consultation code when that total is nonzero,
else that line's unit price, and zero when no line matches; scenario E
(code "890201" matching a line with line total 45000) yields net value
45000. -/
theorem c6_consultation_net_value (b : RipsBuilder) (lines : List InvoiceLine)
    (code : String) :
    ((build_consultation_records b).map (fun r => r.net_value) =
      b.patient.consultations.map (fun c => match_line_value b.invoice.lines (some c.code)))
    ∧ (match_line_value lines (some code) = claim_line_value lines code)
    ∧ ((build_consultation_records (mk_builder c6s_invoice c6x_patient none none)).map
        (fun r => r.net_value) = [45000])
    ∧ c6s_line.line_extension_amount = 45000 := by
  refine ⟨build_consultation_net b, match_line_value_eq_claim lines code, ?_, rfl⟩
  rw [build_consultation_net]
  show [match_line_value c6s_invoice.lines (some ("890201"))] = [45000]
  rw [match_line_value_eq_claim]
  norm_num [claim_line_value, c6s_invoice, c6s_line, List.find?]
  decide

/-! ## Claims C7, C8, C9: the invoice parser -/

/-- C7: the monetary normalizer strips currency symbols and labels, treats
the comma as decimal separator, collapses multiple separators keeping the
last as the decimal point, and falls back to reconstructing a value from
the digit content with the last two digits as cents; scenario A:
"$1.234,56" parses to exactly 1234.56. -/
theorem c7_parse_decimal_normalizer :
    parse_decimal (some ("$1.234,56")) = 1234.56
    ∧ parse_decimal (some ("COP 12,5")) = 12.5
    ∧ parse_decimal (some ("1.2.3,45")) = 123.45
    ∧ parse_decimal (some ("12-34")) = 12.34
    ∧ parse_decimal none = 0
    ∧ parse_decimal (some ("")) = 0 := by
  have h1 : parse_decimal (some ("$1.234,56")) =
      (1 : ℚ) * (((1234 : Nat) : ℚ) + ((56 : Nat) : ℚ) / 10 ^ (2 : Nat)) * 1 := rfl
  have h2 : parse_decimal (some ("COP 12,5")) =
      (1 : ℚ) * (((12 : Nat) : ℚ) + ((5 : Nat) : ℚ) / 10 ^ (1 : Nat)) * 1 := rfl
  have h3 : parse_decimal (some ("1.2.3,45")) =
      (1 : ℚ) * (((123 : Nat) : ℚ) + ((45 : Nat) : ℚ) / 10 ^ (2 : Nat)) * 1 := rfl
  have h4 : parse_decimal (some ("12-34")) =
      ((12 : Nat) : ℚ) + ((34 : Nat) : ℚ) / 100 := rfl
  refine ⟨?_, ?_, ?_, ?_, rfl, rfl⟩
  · rw [h1]
    norm_num
  · rw [h2]
    norm_num
  · rw [h3]
    norm_num
  · rw [h4]
    norm_num

/-- Net values of the built procedure records, one per invoice line. -/
theorem build_procedure_net (b : RipsBuilder) :
    (build_procedure_records b).map (fun r => r.net_value) =
      b.invoice.lines.map (fun line =>
        py_or_q line.line_extension_amount line.price_amount) := by
  unfold build_procedure_records
  rw [List.map_map]
  rfl

/-- C8: for a table row accepted by the line extractor whose extracted line
total is zero while unit price and quantity are both nonzero, the extracted
line carries `unit price × quantity` as its line total, and the procedure
record the builder outputs for that line has that product as its net
value. -/
theorem c8_zero_line_total_fallback
    (r0 r1 r2 r3 r4 r5 r6 r7 : Option String) (rest : List (Option String))
    (invoice : InvoiceData) (p : PatientInfo) (pc : Option String) (a : Option AnnexData)
    (h0 : trim_str (r0.getD "") ≠ "")
    (h0s : (upper_str (trim_str (r0.getD ""))).startsWith ("SUBTOTAL") = false)
    (h7 : parse_decimal r7 = 0)
    (h6 : parse_decimal r6 ≠ 0)
    (h5 : parse_decimal r5 ≠ 0) :
    ∃ l, line_of_row ([r0, r1, r2, r3, r4, r5, r6, r7] ++ rest) = some l
      ∧ l.line_extension_amount = parse_decimal r6 * parse_decimal r5
      ∧ ((build_procedure_records (mk_builder { invoice with lines := [l] } p pc a)).map
          (fun r => r.net_value) = [parse_decimal r6 * parse_decimal r5]) := by
  have hc : (trim_str (r0.getD "") == "") = false := by
    rw [beq_eq_false_iff_ne]
    exact h0
  have e : line_of_row ([r0, r1, r2, r3, r4, r5, r6, r7] ++ rest) =
      some ⟨some (trim_str (r0.getD "")),
            (if trim_str (r1.getD "") == "" then none else some (trim_str (r1.getD ""))),
            clean_description r2,
            py_or_q (parse_decimal r5) 0,
            parse_decimal r6,
            parse_decimal r6 * parse_decimal r5⟩ := by
    simp only [line_of_row, cell_str, List.cons_append, List.getD_cons_zero,
      List.getD_cons_succ, hc, h0s, Bool.false_eq_true, if_false]
    split <;> split <;> first
      | rfl
      | (rename_i hx
         exact absurd ⟨h7, h6, h5⟩ hx)
  refine ⟨_, e, rfl, ?_⟩
  rw [build_procedure_net]
  show [py_or_q (parse_decimal r6 * parse_decimal r5) (parse_decimal r6)] = _
  unfold py_or_q
  rw [if_pos (mul_ne_zero h6 h5)]

/-- C8 witness: the concrete row [id "1", code "890201", descr, -, -,
quantity "2", unit price "45000", line total "0"] yields a line and a
procedure record with net value 45000 × 2 = 90000. -/
theorem c8_zero_line_total_fallback_witness :
    ∃ l, line_of_row ([some ("1"), some ("890201"), some ("CONSULTA"), none, none,
        some ("2"), some ("45000"), some ("0")] ++ [])
        = some l
      ∧ l.line_extension_amount = parse_decimal (some ("45000")) * parse_decimal (some ("2"))
      ∧ ((build_procedure_records (mk_builder { c8w_invoice with lines := [l] }
            empty_patient none none)).map
          (fun r => r.net_value) =
        [parse_decimal (some ("45000")) * parse_decimal (some ("2"))]) := by
  have z7 : parse_decimal (some ("0")) = 0 := by
    have h : parse_decimal (some ("0")) = (1 : ℚ) * ((0 : Nat) : ℚ) * 1 := rfl
    rw [h]
    norm_num
  have z6 : parse_decimal (some ("45000")) ≠ 0 := by
    have h : parse_decimal (some ("45000")) = (1 : ℚ) * ((45000 : Nat) : ℚ) * 1 := rfl
    rw [h]
    norm_num
  have z5 : parse_decimal (some ("2")) ≠ 0 := by
    have h : parse_decimal (some ("2")) = (1 : ℚ) * ((2 : Nat) : ℚ) * 1 := rfl
    rw [h]
    norm_num
  exact c8_zero_line_total_fallback (some ("1")) (some ("890201")) (some ("CONSULTA"))
    none none (some ("2")) (some ("45000")) (some ("0")) [] c8w_invoice empty_patient
    none none (by decide) (by decide) z7 z6 z5

/-- C9: issue-date extraction returns the first of the four
format/pattern attempts (in the fixed priority order) whose leftmost match
parses as a valid date, and raises an extraction error when none does; the
closed conjuncts exercise each format, the priority order, and the
fall-through past a pattern whose match fails date validation. -/
theorem c9_issue_date_priority (text : String) :
    (extract_issue_date text =
      (match first_some (date_attempts text) with
       | some d => Except.ok d
       | none => Except.error ("No se pudo determinar la fecha de la factura")))
    ∧ extract_issue_date ("Fecha de factura: 2024-03-15") = Except.ok ⟨2024, 3, 15⟩
    ∧ extract_issue_date ("31/01/2024 frente a 2024-12-25") = Except.ok ⟨2024, 1, 31⟩
    ∧ extract_issue_date ("99/99/2024 emitida 15-03-2024") = Except.ok ⟨2024, 3, 15⟩
    ∧ extract_issue_date ("corte 5/6/24") = Except.ok ⟨2024, 6, 5⟩
    ∧ extract_issue_date ("sin fecha") =
        Except.error ("No se pudo determinar la fecha de la factura") := by
  refine ⟨?_, rfl, rfl, rfl, rfl, rfl⟩
  show extract_issue_date_go DATE_PATTERNS text.data = _
  simp only [DATE_PATTERNS, date_attempts, extract_issue_date_go]
  rcases h1 : try_date_pattern DateFmt.dmy_slash text.data with _ | d1
  · simp only [h1, extract_issue_date_go, first_some]
    rcases h2 : try_date_pattern DateFmt.dmy_dash text.data with _ | d2
    · simp only [h2, extract_issue_date_go, first_some]
      rcases h3 : try_date_pattern DateFmt.iso text.data with _ | d3
      · simp only [h3, extract_issue_date_go, first_some]
        rcases h4 : try_date_pattern DateFmt.dmy_slash2 text.data with _ | d4
        · simp only [h4, extract_issue_date_go, first_some]
        · simp only [h4, first_some]
      · simp only [h3, first_some]
    · simp only [h2, first_some]
  · simp only [h1, first_some]
